import Mathlib

set_option maxRecDepth 100000

/-!
Verification of the layout engine of the `android-bootimage` repository.

The development shallowly embeds the Rust sources:
* `src/header.rs` — the canonical `Header` codec, section catalog and layout
  calculator (`section_size`, `section_start`, `sections`, `parse`);
* `src/image.rs` — the `BootImage` aggregate and its insert/read operations;
* `src/header/samsung_header.rs` — the `SamsungHeader` codec of the no_std
  rewrite (`parse`, `write_to`);
* `src/image/samsung.rs` — the `SamsungBootImage` write path.

Machine integers are modelled as `Nat`.  Header fields originate from `u32`
reads, so they are below `2 ^ 32`; the `u64`/`usize` arithmetic of the layout
calculator can then never wrap (all intermediate values stay far below
`2 ^ 64`), hence plain `Nat` arithmetic is exact for it.  The one place where
truncation is reachable — `len() as u32` when a buffer is at least `2 ^ 32`
bytes long — is modelled explicitly with `% 2 ^ 32`.
-/

/-- The `Section` enum from `src/lib.rs`: one logical region of a boot image. -/
inductive Section where
  | header
  | kernel
  | ramdisk
  | second
  | deviceTree
deriving DecidableEq, Repr

/-- The size of the header in bytes (`HEADER_SIZE` in `src/header.rs`). -/
def HEADER_SIZE : Nat := 616

/-- The magic signature bytes (`MAGIC` in `src/header.rs`), ASCII "ANDROID!". -/
def MAGIC : List Nat := [0x41, 0x4E, 0x44, 0x52, 0x4F, 0x49, 0x44, 0x21]

/-- The ordered section catalog (`SECTIONS` in `src/header.rs`). -/
def SECTIONS : List Section :=
  [Section.header, Section.kernel, Section.ramdisk, Section.second, Section.deviceTree]

/-- The `Header` struct of `src/header.rs`.  Byte-array fields are byte lists;
`boot_arguments` is kept flat (the source's nested `[[u8; 32]; 16]` is a
row-major view of the same 512 bytes). -/
structure Header where
  magic : List Nat
  kernel_size : Nat
  kernel_load_address : Nat
  ramdisk_size : Nat
  ramdisk_load_address : Nat
  second_size : Nat
  second_load_address : Nat
  device_tree_size : Nat
  _reserved : Nat
  kernel_tags_address : Nat
  page_size : Nat
  product_name : List Nat
  boot_arguments : List Nat
  unique_id : List Nat
deriving DecidableEq, Repr

/-- `Header::correct_magic` from `src/header.rs`: byte-exact magic comparison. -/
def Header.correct_magic (h : Header) : Bool :=
  h.magic == MAGIC

/-- `Header::section_size` from `src/header.rs`: the header's size is the
constant `HEADER_SIZE`; every other section's size is the matching field. -/
def Header.section_size (h : Header) (s : Section) : Nat :=
  match s with
  | Section.header => HEADER_SIZE
  | Section.kernel => h.kernel_size
  | Section.ramdisk => h.ramdisk_size
  | Section.second => h.second_size
  | Section.deviceTree => h.device_tree_size

/-- The error type `LocateSectionError` from `src/header.rs`. -/
inductive LocateSectionError where
  | noPageSize
  | noSection (s : Section)
deriving DecidableEq, Repr

/-- `Header::section_start` from `src/header.rs`: guard against a zero page
size, then sum `(size + page_size - 1) / page_size` over every catalog section
before the requested one and multiply the page count by the page size. -/
def Header.section_start (h : Header) (s : Section) : Except LocateSectionError Nat :=
  if h.page_size = 0 then
    Except.error LocateSectionError.noPageSize
  else
    Except.ok
      ((((SECTIONS.takeWhile fun i => i != s).map
          fun sec => (h.section_size sec + h.page_size - 1) / h.page_size).sum)
        * h.page_size)

/-- `Header::sections` from `src/header.rs`: the catalog filtered to sections
of non-zero size, order preserved. -/
def Header.sections (h : Header) : List Section :=
  SECTIONS.filter fun s => decide (0 < h.section_size s)

/-- Little-endian `u32` assembly of the first four bytes of a list, as
`byteorder`'s `LittleEndian::read_u32` does. -/
def readLE32 (l : List Nat) : Nat :=
  l.getD 0 0 + 256 * l.getD 1 0 + 65536 * l.getD 2 0 + 16777216 * l.getD 3 0

/-- `Header::parse` from `src/header.rs`: field extraction at the declared
fixed offsets; every `read_u32::<LittleEndian>` advances the cursor by four
bytes and every `read_exact` by the width of its target array. -/
def Header.parse (b : List Nat) : Header :=
  { magic := b.take 8
    kernel_size := readLE32 ((b.drop 8).take 4)
    kernel_load_address := readLE32 ((b.drop 12).take 4)
    ramdisk_size := readLE32 ((b.drop 16).take 4)
    ramdisk_load_address := readLE32 ((b.drop 20).take 4)
    second_size := readLE32 ((b.drop 24).take 4)
    second_load_address := readLE32 ((b.drop 28).take 4)
    device_tree_size := readLE32 ((b.drop 32).take 4)
    _reserved := readLE32 ((b.drop 36).take 4)
    kernel_tags_address := readLE32 ((b.drop 40).take 4)
    page_size := readLE32 ((b.drop 44).take 4)
    product_name := (b.drop 48).take 24
    boot_arguments := (b.drop 72).take 512
    unique_id := (b.drop 584).take 32 }

/-- A fixed-width read from the front of a byte list, failing on a short
buffer exactly where the source's `read_exact(...).unwrap()` would panic. -/
def readBytes (n : Nat) (l : List Nat) : Option (List Nat × List Nat) :=
  if n ≤ l.length then some (l.take n, l.drop n) else none

/-- A checked little-endian `u32` read (`read_u32::<LittleEndian>`), advancing
the cursor by four bytes. -/
def readU32 (l : List Nat) : Option (Nat × List Nat) :=
  (readBytes 4 l).map fun p => (readLE32 p.1, p.2)

/-- `Header::parse` again, but with every internal read modelled as fallible,
so that the internal `unwrap` calls of the source are visible as `none`.
Returns the decoded header together with the unconsumed remainder. -/
def Header.parseChecked (b : List Nat) : Option (Header × List Nat) := do
  let (magic, b) ← readBytes 8 b
  let (ks, b) ← readU32 b
  let (kla, b) ← readU32 b
  let (rs, b) ← readU32 b
  let (rla, b) ← readU32 b
  let (ss, b) ← readU32 b
  let (sla, b) ← readU32 b
  let (dts, b) ← readU32 b
  let (res, b) ← readU32 b
  let (kta, b) ← readU32 b
  let (ps, b) ← readU32 b
  let (pn, b) ← readBytes 24 b
  let (ba, b) ← readBytes 512 b
  let (uid, b) ← readBytes 32 b
  some
    ({ magic := magic
       kernel_size := ks
       kernel_load_address := kla
       ramdisk_size := rs
       ramdisk_load_address := rla
       second_size := ss
       second_load_address := sla
       device_tree_size := dts
       _reserved := res
       kernel_tags_address := kta
       page_size := ps
       product_name := pn
       boot_arguments := ba
       unique_id := uid }, b)

/-- The `Default` impl for `Header` in `src/header.rs`. -/
def Header.default : Header :=
  { magic := MAGIC
    kernel_size := 0
    kernel_load_address := 0x10008000
    ramdisk_size := 0
    ramdisk_load_address := 0x11000000
    second_size := 0
    second_load_address := 0x100f0000
    device_tree_size := 0
    _reserved := 0x02000000
    kernel_tags_address := 0x10000100
    page_size := 2048
    product_name := List.replicate 24 0
    boot_arguments := List.replicate 512 0
    unique_id := List.replicate 32 0 }

/-- The `BootImage` struct of `src/image.rs`: one header plus the four payload
buffers. -/
structure BootImage where
  header : Header
  kernel : List Nat
  ramdisk : List Nat
  second_ramdisk : List Nat
  device_tree : List Nat
deriving DecidableEq, Repr

/-- The error type `BadHeaderError` from `src/image.rs`; each variant carries
the offending header. -/
inductive BadHeaderError where
  | noPageSize (h : Header)
  | badMagic (h : Header)
deriving DecidableEq, Repr

/-- The `u32` modulus: `len() as u32` truncates a 64-bit length to this. -/
def U32_MOD : Nat := 4294967296

/-- `BootImage::update_all_sizes` from `src/image.rs`: copies every buffer
length into the matching header size field (`len() as u32`). -/
def BootImage.update_all_sizes (img : BootImage) : BootImage :=
  { img with
    header :=
      { img.header with
        kernel_size := img.kernel.length % U32_MOD
        ramdisk_size := img.ramdisk.length % U32_MOD
        second_size := img.second_ramdisk.length % U32_MOD
        device_tree_size := img.device_tree.length % U32_MOD } }

/-- `BootImage::insert_header` from `src/image.rs`, modelled as a function from
the old state to the returned `Result` paired with the new state.  A failed
validation returns the state untouched; success swaps the header in, reruns
`update_all_sizes`, and hands back the previous header. -/
def BootImage.insert_header (img : BootImage) (new_header : Header) :
    Except BadHeaderError Header × BootImage :=
  if ¬ new_header.correct_magic then
    (Except.error (BadHeaderError.badMagic new_header), img)
  else if new_header.page_size = 0 then
    (Except.error (BadHeaderError.noPageSize new_header), img)
  else
    (Except.ok img.header, ({ img with header := new_header }).update_all_sizes)

/-- `BootImage::insert_kernel` from `src/image.rs`: set the size field from
the new buffer's length, swap the buffers, return the old one. -/
def BootImage.insert_kernel (img : BootImage) (new_kernel : List Nat) :
    List Nat × BootImage :=
  (img.kernel,
   { img with
     header := { img.header with kernel_size := new_kernel.length % U32_MOD }
     kernel := new_kernel })

/-- `BootImage::insert_ramdisk` from `src/image.rs`. -/
def BootImage.insert_ramdisk (img : BootImage) (new_ramdisk : List Nat) :
    List Nat × BootImage :=
  (img.ramdisk,
   { img with
     header := { img.header with ramdisk_size := new_ramdisk.length % U32_MOD }
     ramdisk := new_ramdisk })

/-- `BootImage::insert_second_ramdisk` from `src/image.rs`. -/
def BootImage.insert_second_ramdisk (img : BootImage) (new_second_ramdisk : List Nat) :
    List Nat × BootImage :=
  (img.second_ramdisk,
   { img with
     header := { img.header with second_size := new_second_ramdisk.length % U32_MOD }
     second_ramdisk := new_second_ramdisk })

/-- `BootImage::insert_device_tree` from `src/image.rs`. -/
def BootImage.insert_device_tree (img : BootImage) (new_device_tree : List Nat) :
    List Nat × BootImage :=
  (img.device_tree,
   { img with
     header := { img.header with device_tree_size := new_device_tree.length % U32_MOD }
     device_tree := new_device_tree })

/-- The `Default` impl for `BootImage` in `src/image.rs`. -/
def BootImage.default : BootImage :=
  { header := Header.default
    kernel := []
    ramdisk := []
    second_ramdisk := []
    device_tree := [] }

/-- One public insert operation on a `BootImage` (the mutators of
`src/image.rs`), reified so that sequences of calls can be quantified over. -/
inductive InsertOp where
  | insertHeader (h : Header)
  | insertKernel (b : List Nat)
  | insertRamdisk (b : List Nat)
  | insertSecondRamdisk (b : List Nat)
  | insertDeviceTree (b : List Nat)

/-- Runs one insert operation; a failing `insert_header` leaves the image
unchanged, exactly as the source's early `Err` return does. -/
def BootImage.applyOp (img : BootImage) (op : InsertOp) : BootImage :=
  match op with
  | InsertOp.insertHeader h => (img.insert_header h).2
  | InsertOp.insertKernel b => (img.insert_kernel b).2
  | InsertOp.insertRamdisk b => (img.insert_ramdisk b).2
  | InsertOp.insertSecondRamdisk b => (img.insert_second_ramdisk b).2
  | InsertOp.insertDeviceTree b => (img.insert_device_tree b).2

/-- Runs a finite sequence of insert operations in order. -/
def BootImage.applyOps (img : BootImage) (ops : List InsertOp) : BootImage :=
  ops.foldl BootImage.applyOp img

/-- A seekable byte stream: the underlying bytes plus a cursor, the shallow
embedding of the `Read + Seek` sources used by `read_from`. -/
structure ByteStream where
  data : List Nat
  pos : Nat
deriving DecidableEq, Repr

/-- `read_exact` on a stream: succeeds only when the requested count is fully
available at the cursor, and advances the cursor past it. -/
def ByteStream.read_exact (st : ByteStream) (n : Nat) :
    Option (List Nat × ByteStream) :=
  if st.pos + n ≤ st.data.length then
    some ((st.data.drop st.pos).take n, { st with pos := st.pos + n })
  else
    none

/-- The error type `ReadBootImageError` from `src/image.rs`. -/
inductive ReadBootImageError where
  | ioError
  | badHeader (e : BadHeaderError)
deriving DecidableEq, Repr

/-- `BootImage::read_from` from `src/image.rs`: read and parse the 616 header
bytes, overwrite the page size with the override when one is given, commit the
header through `insert_header`, then read the four payload buffers with
back-to-back `read_exact` calls — the source performs no seek between
sections — and install them.  Any short read aborts with `Io`; a rejected
header aborts with `BadHeader`. -/
def BootImage.read_from (source : ByteStream) (override_page_size : Option Nat) :
    Except ReadBootImageError (BootImage × ByteStream) :=
  match source.read_exact HEADER_SIZE with
  | none => Except.error ReadBootImageError.ioError
  | some (hbuf, source) =>
    let parsed := Header.parse hbuf
    let header := { parsed with page_size := override_page_size.getD parsed.page_size }
    let boot_image := BootImage.default
    match boot_image.insert_header header with
    | (Except.error e, _) => Except.error (ReadBootImageError.badHeader e)
    | (Except.ok _, boot_image) =>
      match source.read_exact header.kernel_size with
      | none => Except.error ReadBootImageError.ioError
      | some (kernel, source) =>
        match source.read_exact header.ramdisk_size with
        | none => Except.error ReadBootImageError.ioError
        | some (ramdisk, source) =>
          match source.read_exact header.second_size with
          | none => Except.error ReadBootImageError.ioError
          | some (second_ramdisk, source) =>
            match source.read_exact header.device_tree_size with
            | none => Except.error ReadBootImageError.ioError
            | some (device_tree, source) =>
              let boot_image := (boot_image.insert_kernel kernel).2
              let boot_image := (boot_image.insert_ramdisk ramdisk).2
              let boot_image := (boot_image.insert_second_ramdisk second_ramdisk).2
              let boot_image := (boot_image.insert_device_tree device_tree).2
              Except.ok (boot_image, source)

/-- The `SamsungHeader` struct of `src/header/samsung_header.rs` (fields
identical to `Header`; the consts of `src/header/consts.rs` coincide with the
canonical ones). -/
structure SamsungHeader where
  magic : List Nat
  kernel_size : Nat
  kernel_load_address : Nat
  ramdisk_size : Nat
  ramdisk_load_address : Nat
  second_size : Nat
  second_load_address : Nat
  device_tree_size : Nat
  _reserved : Nat
  kernel_tags_address : Nat
  page_size : Nat
  product_name : List Nat
  boot_arguments : List Nat
  unique_id : List Nat
deriving DecidableEq, Repr

/-- `SAMSUNG_HEADER_SIZE` from `src/header/consts.rs`. -/
def SAMSUNG_HEADER_SIZE : Nat := 616

/-- `SamsungHeader::parse` from `src/header/samsung_header.rs`, byte-faithful
to the source: the initial `read_exact` for `magic` advances the slice cursor
to byte 8, but every subsequent `LittleEndian::read_u32(&src)` is
`ByteOrder::read_u32`, which decodes the four bytes at the cursor WITHOUT
advancing it — so all ten `u32` fields decode the same bytes 8..12.  The later
`read_exact` calls resume from byte 8: `product_name` takes bytes 8..32,
`boot_arguments` bytes 32..544, `unique_id` bytes 544..576. -/
def SamsungHeader.parse (src : List Nat) : SamsungHeader :=
  { magic := src.take 8
    kernel_size := readLE32 ((src.drop 8).take 4)
    kernel_load_address := readLE32 ((src.drop 8).take 4)
    ramdisk_size := readLE32 ((src.drop 8).take 4)
    ramdisk_load_address := readLE32 ((src.drop 8).take 4)
    second_size := readLE32 ((src.drop 8).take 4)
    second_load_address := readLE32 ((src.drop 8).take 4)
    device_tree_size := readLE32 ((src.drop 8).take 4)
    _reserved := readLE32 ((src.drop 8).take 4)
    kernel_tags_address := readLE32 ((src.drop 8).take 4)
    page_size := readLE32 ((src.drop 8).take 4)
    product_name := (src.drop 8).take 24
    boot_arguments := (src.drop 32).take 512
    unique_id := (src.drop 544).take 32 }

/-- The little-endian four-byte encoding of a `u32` value. -/
def le32 (n : Nat) : List Nat :=
  [n % 256, n / 256 % 256, n / 65536 % 256, n / 16777216 % 256]

/-- The byte sequence emitted by `SamsungHeader::write_to` from
`src/header/samsung_header.rs`: magic, the ten `u32` fields in declared order,
then the fixed byte-array fields.  The source routes the `u32` fields through
`Hasher::write_u32`, whose default forwards `to_ne_bytes` to the writer; the
model assumes the writer sinks those bytes into the same output and that the
native byte order is little-endian, as on the supported targets. -/
def SamsungHeader.write_bytes (h : SamsungHeader) : List Nat :=
  h.magic
    ++ le32 h.kernel_size ++ le32 h.kernel_load_address
    ++ le32 h.ramdisk_size ++ le32 h.ramdisk_load_address
    ++ le32 h.second_size ++ le32 h.second_load_address
    ++ le32 h.device_tree_size ++ le32 h._reserved
    ++ le32 h.kernel_tags_address ++ le32 h.page_size
    ++ h.product_name ++ h.boot_arguments ++ h.unique_id

/-- Well-formedness of a `SamsungHeader` value: the list fields have exactly
the widths the source's fixed-size arrays give them by construction. -/
def SamsungHeader.wf (h : SamsungHeader) : Prop :=
  h.magic.length = 8 ∧ h.product_name.length = 24 ∧
    h.boot_arguments.length = 512 ∧ h.unique_id.length = 32

instance (h : SamsungHeader) : Decidable h.wf := by
  unfold SamsungHeader.wf; infer_instance

/-- The `SamsungBootImage` struct of `src/image/samsung.rs`. -/
structure SamsungBootImage where
  header : SamsungHeader
  kernel : List Nat
  ramdisk : List Nat
  second_ramdisk : List Nat
  device_tree : List Nat
deriving DecidableEq, Repr

/-- `SamsungBootImage::write_header_to` from `src/image/samsung.rs`: appends
the serialized header to the output and reports `SAMSUNG_HEADER_SIZE` bytes
written (the constant the source returns). -/
def SamsungBootImage.write_header_to (img : SamsungBootImage) (target : List Nat) :
    List Nat × Nat :=
  (target ++ img.header.write_bytes, SAMSUNG_HEADER_SIZE)

/-- `SamsungBootImage::write_kernel_to` from `src/image/samsung.rs`. -/
def SamsungBootImage.write_kernel_to (img : SamsungBootImage) (target : List Nat) :
    List Nat × Nat :=
  (target ++ img.kernel, img.kernel.length)

/-- `SamsungBootImage::write_ramdisk_to` from `src/image/samsung.rs`. -/
def SamsungBootImage.write_ramdisk_to (img : SamsungBootImage) (target : List Nat) :
    List Nat × Nat :=
  (target ++ img.ramdisk, img.ramdisk.length)

/-- `SamsungBootImage::write_second_ramdisk_to` from `src/image/samsung.rs`. -/
def SamsungBootImage.write_second_ramdisk_to (img : SamsungBootImage) (target : List Nat) :
    List Nat × Nat :=
  (target ++ img.second_ramdisk, img.second_ramdisk.length)

/-- `SamsungBootImage::write_device_tree_to` from `src/image/samsung.rs`. -/
def SamsungBootImage.write_device_tree_to (img : SamsungBootImage) (target : List Nat) :
    List Nat × Nat :=
  (target ++ img.device_tree, img.device_tree.length)

/-- `SamsungBootImage::write_to` from `src/image/samsung.rs`: header, then the
four payload buffers in catalog order, accumulating the byte counts. -/
def SamsungBootImage.write_to (img : SamsungBootImage) (target : List Nat) :
    List Nat × Nat :=
  let (target, n1) := img.write_header_to target
  let (target, n2) := img.write_kernel_to target
  let (target, n3) := img.write_ramdisk_to target
  let (target, n4) := img.write_second_ramdisk_to target
  let (target, n5) := img.write_device_tree_to target
  (target, n1 + n2 + n3 + n4 + n5)

/-- Spec-side definition (for the refinement statement): the catalog sections
strictly preceding a target in the fixed order Header, Kernel, Ramdisk,
SecondStage, DeviceTree. -/
def specCatalogBefore (s : Section) : List Section :=
  match s with
  | Section.header => []
  | Section.kernel => [Section.header]
  | Section.ramdisk => [Section.header, Section.kernel]
  | Section.second => [Section.header, Section.kernel, Section.ramdisk]
  | Section.deviceTree => [Section.header, Section.kernel, Section.ramdisk, Section.second]

/-- Spec-side definition (for the refinement statement): the Header section's
size is the constant 616, every other section's size is the corresponding
header field. -/
def specSectionSize (h : Header) (s : Section) : Nat :=
  match s with
  | Section.header => 616
  | Section.kernel => h.kernel_size
  | Section.ramdisk => h.ramdisk_size
  | Section.second => h.second_size
  | Section.deviceTree => h.device_tree_size

/-- Spec-side definition (for the refinement statement): the byte offset of a
target section is the page size times the sum, over the catalog sections
before the target, of the ceiling of size divided by page size (`⌈/⌉` is
Mathlib's ceiling division on `Nat`). -/
def specOffset (h : Header) (s : Section) : Nat :=
  h.page_size *
    (((specCatalogBefore s).map fun sec => specSectionSize h sec ⌈/⌉ h.page_size).sum)

/-- Immediate precedence in catalog order: the four consecutive pairs of the
five-section catalog. -/
def catalogAdjacent (s1 s2 : Section) : Prop :=
  (s1, s2) ∈
    [(Section.header, Section.kernel), (Section.kernel, Section.ramdisk),
     (Section.ramdisk, Section.second), (Section.second, Section.deviceTree)]

instance (s1 s2 : Section) : Decidable (catalogAdjacent s1 s2) := by
  unfold catalogAdjacent; infer_instance

/-- A concrete 616-byte buffer exercising the Samsung round trip: bytes 8..12
are `01 00 00 00` (kernel_size position) and bytes 12..16 are `02 00 00 00`
(kernel_load_address position). -/
def samsungCexBuf : List Nat :=
  List.replicate 8 0 ++ [1, 0, 0, 0] ++ [2, 0, 0, 0] ++ List.replicate 600 0

/-- A concrete 616-byte header record: valid magic, kernel_size 1, every other
payload size 0, page_size 2048, remaining fields zero. -/
def seqReadHeaderBytes : List Nat :=
  MAGIC ++ le32 1 ++ le32 0 ++ le32 0 ++ le32 0 ++ le32 0 ++ le32 0 ++ le32 0
    ++ le32 0 ++ le32 0 ++ le32 2048 ++ List.replicate 568 0

/-- A concrete 617-byte stream: the header record above followed by the single
payload byte `7` sitting immediately after the header (byte offset 616). -/
def seqReadStream : ByteStream :=
  { data := seqReadHeaderBytes ++ [7], pos := 0 }

/-- The size/buffer synchronization invariant as the code actually maintains
it: every header size field equals the matching buffer length truncated to
`u32` (`len() as u32`); for buffers shorter than `2 ^ 32` bytes this is the
length itself. -/
def BootImage.sizesMatchMod (img : BootImage) : Prop :=
  img.header.kernel_size = img.kernel.length % U32_MOD ∧
    img.header.ramdisk_size = img.ramdisk.length % U32_MOD ∧
    img.header.second_size = img.second_ramdisk.length % U32_MOD ∧
    img.header.device_tree_size = img.device_tree.length % U32_MOD

/-- The `Default` impl for `SamsungHeader` in `src/header/samsung_header.rs`. -/
def SamsungHeader.default : SamsungHeader :=
  { magic := MAGIC
    kernel_size := 0
    kernel_load_address := 0x10008000
    ramdisk_size := 0
    ramdisk_load_address := 0x11000000
    second_size := 0
    second_load_address := 0x100f0000
    device_tree_size := 0
    _reserved := 0x02000000
    kernel_tags_address := 0x10000100
    page_size := 2048
    product_name := List.replicate 24 0
    boot_arguments := List.replicate 512 0
    unique_id := List.replicate 32 0 }

/-- The `Default` impl for `SamsungBootImage` in `src/image/samsung.rs`. -/
def SamsungBootImage.default : SamsungBootImage :=
  { header := SamsungHeader.default
    kernel := []
    ramdisk := []
    second_ramdisk := []
    device_tree := [] }

/-- Extracts the kernel buffer from a successful `read_from` result. -/
def readKernelResult (r : Except ReadBootImageError (BootImage × ByteStream)) :
    Option (List Nat) :=
  match r with
  | Except.ok (img, _) => some img.kernel
  | Except.error _ => none

/-- Rounding a size up to whole pages never loses bytes: the rounded-up page
count times the page size covers the size. -/
theorem le_div_round_mul (a ps : Nat) (hps : ps ≠ 0) :
    a ≤ (a + ps - 1) / ps * ps := by
  have h : a ≤ ps * (a ⌈/⌉ ps) := le_smul_ceilDiv (Nat.pos_of_ne_zero hps)
  rw [Nat.ceilDiv_eq_add_pred_div] at h
  calc a ≤ ps * ((a + ps - 1) / ps) := h
    _ = (a + ps - 1) / ps * ps := Nat.mul_comm ..

/-- Catalog prefix before the header section, computed. -/
theorem takeWhile_ne_header :
    (SECTIONS.takeWhile fun i => i != Section.header) = [] := rfl

/-- Catalog prefix before the kernel section, computed. -/
theorem takeWhile_ne_kernel :
    (SECTIONS.takeWhile fun i => i != Section.kernel) = [Section.header] := rfl

/-- Catalog prefix before the ramdisk section, computed. -/
theorem takeWhile_ne_ramdisk :
    (SECTIONS.takeWhile fun i => i != Section.ramdisk) =
      [Section.header, Section.kernel] := rfl

/-- Catalog prefix before the second-stage section, computed. -/
theorem takeWhile_ne_second :
    (SECTIONS.takeWhile fun i => i != Section.second) =
      [Section.header, Section.kernel, Section.ramdisk] := rfl

/-- Catalog prefix before the device-tree section, computed. -/
theorem takeWhile_ne_deviceTree :
    (SECTIONS.takeWhile fun i => i != Section.deviceTree) =
      [Section.header, Section.kernel, Section.ramdisk, Section.second] := rfl

/-- With a non-zero page size, `section_start` takes its `Except.ok` branch. -/
theorem section_start_of_ne (h : Header) (hps : h.page_size ≠ 0) (s : Section) :
    h.section_start s =
      Except.ok
        ((((SECTIONS.takeWhile fun i => i != s).map
            fun sec => (h.section_size sec + h.page_size - 1) / h.page_size).sum)
          * h.page_size) := by
  simp only [Header.section_start, if_neg hps]

/-- C1: for every header with a non-zero page size, `section_start` returns
exactly the spec's formula — the page size times the sum, over the catalog
sections strictly preceding the target, of the size rounded up to whole
pages, with the Header section's size the constant 616 and every other size
the corresponding header field. -/
theorem section_start_eq_specOffset (h : Header) (s : Section)
    (hps : h.page_size ≠ 0) :
    h.section_start s = Except.ok (specOffset h s) := by
  cases s <;>
    simp [Header.section_start, hps, takeWhile_ne_header, takeWhile_ne_kernel,
      takeWhile_ne_ramdisk, takeWhile_ne_second, takeWhile_ne_deviceTree,
      specOffset, specCatalogBefore, specSectionSize, Header.section_size,
      HEADER_SIZE, Nat.ceilDiv_eq_add_pred_div, Nat.mul_comm]

/-- Witness for C1 at the default header and the ramdisk section. -/
theorem section_start_eq_specOffset_witness :
    Header.default.page_size ≠ 0 ∧
      Header.default.section_start Section.ramdisk =
        Except.ok (specOffset Header.default Section.ramdisk) :=
  ⟨by decide, section_start_eq_specOffset Header.default Section.ramdisk (by decide)⟩

/-- C4: for every header with a non-zero page size and every pair of sections
with the second immediately following the first in catalog order, both offsets
are defined, the second offset is at least the first offset plus the first
section's size, and the second offset is an exact multiple of the page size. -/
theorem section_start_monotone_aligned (h : Header) (s1 s2 : Section)
    (hps : h.page_size ≠ 0) (hadj : catalogAdjacent s1 s2) :
    ∃ o1 o2, h.section_start s1 = Except.ok o1 ∧ h.section_start s2 = Except.ok o2 ∧
      o1 + h.section_size s1 ≤ o2 ∧ h.page_size ∣ o2 := by
  have hH := le_div_round_mul 616 h.page_size hps
  have hK := le_div_round_mul h.kernel_size h.page_size hps
  have hR := le_div_round_mul h.ramdisk_size h.page_size hps
  have hS := le_div_round_mul h.second_size h.page_size hps
  simp only [catalogAdjacent, List.mem_cons, List.not_mem_nil, or_false,
    Prod.mk.injEq] at hadj
  rcases hadj with ⟨rfl, rfl⟩ | ⟨rfl, rfl⟩ | ⟨rfl, rfl⟩ | ⟨rfl, rfl⟩ <;>
    refine ⟨_, _, section_start_of_ne h hps _, section_start_of_ne h hps _, ?_, ?_⟩ <;>
      first
        | (simp only [takeWhile_ne_header, takeWhile_ne_kernel, takeWhile_ne_ramdisk,
            takeWhile_ne_second, takeWhile_ne_deviceTree, List.map_nil, List.map_cons,
            List.sum_nil, List.sum_cons, Header.section_size, HEADER_SIZE,
            Nat.add_zero, Nat.zero_mul, Nat.zero_add, Nat.add_mul]
           omega)
        | exact dvd_mul_left _ _

/-- Witness for C4 at the default header and the pair header-before-kernel. -/
theorem section_start_monotone_aligned_witness :
    Header.default.page_size ≠ 0 ∧ catalogAdjacent Section.header Section.kernel ∧
      (∃ o1 o2, Header.default.section_start Section.header = Except.ok o1 ∧
        Header.default.section_start Section.kernel = Except.ok o2 ∧
        o1 + Header.default.section_size Section.header ≤ o2 ∧
        Header.default.page_size ∣ o2) :=
  ⟨by decide, by decide,
    section_start_monotone_aligned Header.default Section.header Section.kernel
      (by decide) (by decide)⟩

/-- C5: whenever the header's page size field is zero, `section_start` fails
with `NoPageSize` for every target section, the Header section included. -/
theorem section_start_zero_page_size (h : Header) (s : Section)
    (hps : h.page_size = 0) :
    h.section_start s = Except.error LocateSectionError.noPageSize := by
  simp [Header.section_start, hps]

/-- Witness for C5 at a concrete header whose page size is zero, targeting the
Header section itself. -/
theorem section_start_zero_page_size_witness :
    ({ Header.default with page_size := 0 } : Header).page_size = 0 ∧
      ({ Header.default with page_size := 0 } : Header).section_start Section.header =
        Except.error LocateSectionError.noPageSize :=
  ⟨rfl, section_start_zero_page_size _ Section.header rfl⟩

/-- C10: the present-sections enumeration always reports the Header section,
because its size is the non-zero constant 616; a section can only be reported
absent if it is one of the four payload sections. -/
theorem sections_contains_header (h : Header) :
    Section.header ∈ h.sections ∧
      ∀ s : Section, s ∉ h.sections → s ≠ Section.header := by
  constructor
  · simp [Header.sections, SECTIONS, List.mem_filter, Header.section_size, HEADER_SIZE]
  · intro s hs heq
    subst heq
    exact hs (by simp [Header.sections, SECTIONS, List.mem_filter, Header.section_size,
      HEADER_SIZE])

/-- C9: on any buffer of exactly 616 bytes, the fallible rendering of
`Header::parse` succeeds — none of its internal reads runs short, so none of
the source's `unwrap` calls can panic — it consumes the buffer exactly, and it
decodes the fields at their declared little-endian fixed-width offsets. -/
theorem parseChecked_total (b : List Nat) (hlen : b.length = 616) :
    Header.parseChecked b = some (Header.parse b, []) := by
  simp [Header.parseChecked, readU32, readBytes, Option.bind, hlen,
    List.drop_drop, List.length_drop, Header.parse,
    List.drop_eq_nil_of_le, hlen]

/-- Witness for C9 at the all-zero 616-byte buffer. -/
theorem parseChecked_total_witness :
    (List.replicate 616 0).length = 616 ∧
      Header.parseChecked (List.replicate 616 0) =
        some (Header.parse (List.replicate 616 0), []) :=
  ⟨by simp, parseChecked_total (List.replicate 616 0) (by simp)⟩

/-- C2 evaluated at the failing buffer: `SamsungHeader::parse` never advances
its cursor for the ten `u32` reads, so both `kernel_size` and
`kernel_load_address` decode the bytes 8..12 (value 1), and re-serializing the
parsed header does not reproduce the 616-byte input (offset 12 holds 1 instead
of 2). -/
theorem samsung_roundtrip_fails :
    (SamsungHeader.parse samsungCexBuf).kernel_size = 1 ∧
      (SamsungHeader.parse samsungCexBuf).kernel_load_address = 1 ∧
      samsungCexBuf.length = 616 ∧
      (SamsungHeader.parse samsungCexBuf).write_bytes ≠ samsungCexBuf := by
  refine ⟨rfl, rfl, rfl, ?_⟩
  decide

/-- Inserting a kernel of `n` zero bytes into the default image stores
`n mod 2 ^ 32` in the size field while the buffer itself has length `n`. -/
theorem applyOps_insert_replicate_kernel (n : Nat) :
    (BootImage.applyOps BootImage.default
        [InsertOp.insertKernel (List.replicate n 0)]).header.kernel_size = n % U32_MOD ∧
      (BootImage.applyOps BootImage.default
        [InsertOp.insertKernel (List.replicate n 0)]).kernel.length = n := by
  constructor
  · show (List.replicate n (0 : Nat)).length % U32_MOD = n % U32_MOD
    rw [List.length_replicate]
  · show (List.replicate n (0 : Nat)).length = n
    rw [List.length_replicate]

/-- Committing a valid header over a kernel buffer of `n` zero bytes stores
`n mod 2 ^ 32` in the size field while the buffer itself has length `n`. -/
theorem insert_header_over_replicate_kernel (n : Nat) :
    (((BootImage.default.insert_kernel (List.replicate n 0)).2).insert_header
        Header.default).2.header.kernel_size = n % U32_MOD ∧
      (((BootImage.default.insert_kernel (List.replicate n 0)).2).insert_header
        Header.default).2.kernel.length = n := by
  constructor
  · show (List.replicate n (0 : Nat)).length % U32_MOD = n % U32_MOD
    rw [List.length_replicate]
  · show (List.replicate n (0 : Nat)).length = n
    rw [List.length_replicate]

/-- C3 counterexample: inserting a kernel of `2 ^ 32` bytes leaves the
`kernel_size` field at `2 ^ 32 mod 2 ^ 32 = 0` (`len() as u32` truncates),
which differs from the buffer's length. -/
theorem insert_sizes_exact_claim_false :
    (BootImage.applyOps BootImage.default
        [InsertOp.insertKernel (List.replicate 4294967296 0)]).header.kernel_size ≠
      (BootImage.applyOps BootImage.default
        [InsertOp.insertKernel (List.replicate 4294967296 0)]).kernel.length := by
  have h := applyOps_insert_replicate_kernel 4294967296
  rw [h.1, h.2]
  decide

/-- C3 as amended: starting from the default boot image, after any finite
sequence of insert operations (failed header inserts leave the state
untouched), every header size field equals the matching buffer length
truncated to `u32` — hence equals the length itself whenever every inserted
buffer is shorter than `2 ^ 32` bytes. -/
theorem insert_ops_sizes_match_mod (ops : List InsertOp) :
    (BootImage.applyOps BootImage.default ops).sizesMatchMod := by
  have step : ∀ (img : BootImage) (op : InsertOp),
      img.sizesMatchMod → (img.applyOp op).sizesMatchMod := by
    intro img op hinv
    obtain ⟨h1, h2, h3, h4⟩ := hinv
    cases op with
    | insertHeader hh =>
      simp only [BootImage.applyOp, BootImage.insert_header]
      split
      · exact ⟨h1, h2, h3, h4⟩
      · split
        · exact ⟨h1, h2, h3, h4⟩
        · simp [BootImage.update_all_sizes, BootImage.sizesMatchMod]
    | insertKernel b =>
      simp [BootImage.applyOp, BootImage.insert_kernel, BootImage.sizesMatchMod,
        h2, h3, h4]
    | insertRamdisk b =>
      simp [BootImage.applyOp, BootImage.insert_ramdisk, BootImage.sizesMatchMod,
        h1, h3, h4]
    | insertSecondRamdisk b =>
      simp [BootImage.applyOp, BootImage.insert_second_ramdisk, BootImage.sizesMatchMod,
        h1, h2, h4]
    | insertDeviceTree b =>
      simp [BootImage.applyOp, BootImage.insert_device_tree, BootImage.sizesMatchMod,
        h1, h2, h3]
  have run : ∀ (ops : List InsertOp) (img : BootImage),
      img.sizesMatchMod → (BootImage.applyOps img ops).sizesMatchMod := by
    intro ops
    induction ops with
    | nil => intro img h; exact h
    | cons op rest ih =>
      intro img h
      exact ih _ (step img op h)
  exact run ops BootImage.default
    (by simp [BootImage.sizesMatchMod, BootImage.default, Header.default])

/-- C6 counterexample: at a state holding a `2 ^ 32`-byte kernel buffer, a
successful `insert_header` writes `0` (the truncated length) into
`kernel_size`, not the buffer's length. -/
theorem insert_header_sizes_truncate :
    (((BootImage.default.insert_kernel (List.replicate 4294967296 0)).2).insert_header
        Header.default).2.header.kernel_size ≠
      (((BootImage.default.insert_kernel (List.replicate 4294967296 0)).2).insert_header
        Header.default).2.kernel.length := by
  have h := insert_header_over_replicate_kernel 4294967296
  rw [h.1, h.2]
  decide

/-- C6 as amended: `insert_header` rejects a wrong magic with `BadMagic`,
otherwise rejects a zero page size with `NoPageSize`, and in either failure
case returns the image unchanged; on success it installs the candidate header
with its four size fields overwritten by the current buffer lengths truncated
to `u32` (the lengths themselves whenever the buffers are shorter than
`2 ^ 32` bytes, the candidate's own size fields being discarded) and returns
the previous header unchanged. -/
theorem insert_header_spec (img : BootImage) (h : Header) :
    (h.correct_magic = false →
      img.insert_header h = (Except.error (BadHeaderError.badMagic h), img)) ∧
    (h.correct_magic = true → h.page_size = 0 →
      img.insert_header h = (Except.error (BadHeaderError.noPageSize h), img)) ∧
    (h.correct_magic = true → h.page_size ≠ 0 →
      img.insert_header h =
        (Except.ok img.header,
         { header :=
             { h with
               kernel_size := img.kernel.length % U32_MOD
               ramdisk_size := img.ramdisk.length % U32_MOD
               second_size := img.second_ramdisk.length % U32_MOD
               device_tree_size := img.device_tree.length % U32_MOD }
           kernel := img.kernel
           ramdisk := img.ramdisk
           second_ramdisk := img.second_ramdisk
           device_tree := img.device_tree })) := by
  refine ⟨?_, ?_, ?_⟩
  · intro hm
    simp [BootImage.insert_header, hm]
  · intro hm hps
    simp [BootImage.insert_header, hm, hps]
  · intro hm hps
    simp [BootImage.insert_header, hm, hps, BootImage.update_all_sizes]

/-- Witness for C6: a wrong-magic header and a zero-page-size header are both
rejected with the image left untouched. -/
theorem insert_header_spec_witness :
    BootImage.default.insert_header { Header.default with magic := List.replicate 8 0 } =
      (Except.error
        (BadHeaderError.badMagic { Header.default with magic := List.replicate 8 0 }),
       BootImage.default) ∧
    BootImage.default.insert_header { Header.default with page_size := 0 } =
      (Except.error
        (BadHeaderError.noPageSize { Header.default with page_size := 0 }),
       BootImage.default) :=
  ⟨(insert_header_spec BootImage.default _).1 (by decide),
   (insert_header_spec BootImage.default _).2.1 (by decide) rfl⟩

/-- C7 evaluated at the failing stream: `BootImage::read_from` performs no
seek — on a 617-byte stream whose header declares kernel_size 1 and page_size
2048 it returns the byte at offset 616 as the kernel, although the computed
page-aligned kernel offset is 2048, beyond the stream's end. -/
theorem read_from_reads_kernel_sequentially :
    readKernelResult (BootImage.read_from seqReadStream none) = some [7] ∧
      (Header.parse seqReadHeaderBytes).section_start Section.kernel =
        Except.ok 2048 ∧
      seqReadStream.data.length = 617 := by
  refine ⟨rfl, rfl, rfl⟩

/-- C8: `SamsungBootImage::write_to` appends to the stream exactly the
serialized header followed by the four payload buffers in catalog order with
no padding in between, and reports 616 plus the sum of the four buffer
lengths as written; the serialized header of a well-formed header value is
exactly 616 bytes. -/
theorem samsung_write_to_spec (img : SamsungBootImage) (t : List Nat)
    (hwf : img.header.wf) :
    img.write_to t =
      (t ++ img.header.write_bytes ++ img.kernel ++ img.ramdisk
         ++ img.second_ramdisk ++ img.device_tree,
       616 + img.kernel.length + img.ramdisk.length +
         img.second_ramdisk.length + img.device_tree.length) ∧
      img.header.write_bytes.length = 616 := by
  obtain ⟨h1, h2, h3, h4⟩ := hwf
  constructor
  · simp [SamsungBootImage.write_to, SamsungBootImage.write_header_to,
      SamsungBootImage.write_kernel_to, SamsungBootImage.write_ramdisk_to,
      SamsungBootImage.write_second_ramdisk_to, SamsungBootImage.write_device_tree_to,
      SAMSUNG_HEADER_SIZE, List.append_assoc]
  · simp [SamsungHeader.write_bytes, le32, h1, h2, h3, h4]

/-- Witness for C8 at the default Samsung image and an empty stream. -/
theorem samsung_write_to_spec_witness :
    SamsungBootImage.default.header.wf ∧
      SamsungBootImage.default.write_to [] =
        ([] ++ SamsungBootImage.default.header.write_bytes
           ++ SamsungBootImage.default.kernel ++ SamsungBootImage.default.ramdisk
           ++ SamsungBootImage.default.second_ramdisk
           ++ SamsungBootImage.default.device_tree,
         616 + SamsungBootImage.default.kernel.length
           + SamsungBootImage.default.ramdisk.length
           + SamsungBootImage.default.second_ramdisk.length
           + SamsungBootImage.default.device_tree.length) ∧
      SamsungBootImage.default.header.write_bytes.length = 616 :=
  ⟨by decide,
   (samsung_write_to_spec SamsungBootImage.default [] (by decide)).1,
   (samsung_write_to_spec SamsungBootImage.default [] (by decide)).2⟩
